import Mathlib

/-!
Formal model of the trading-bot repository.

The Python sources under `src/trading_bot/` are shallowly embedded as
executable Lean definitions: prices and quantities become rationals,
Python dictionaries become structures with optional fields, environment
access becomes an explicit lookup function, and the async trading loop
becomes explicit state passing over a `BotState` record.  Exceptions are
modelled with `Except` over a two-constructor error taxonomy
(`ValueError` vs `TradingBotError`, mirroring `errors.py`).
-/

set_option autoImplicit false

namespace TradingBotModel

/-- Error taxonomy of the repository: Python `ValueError` (invalid
configuration value) versus the domain `TradingBotError` from
`errors.py`. -/
inductive BotError where
  | valueError (msg : String)
  | tradingBotError (msg : String)
deriving DecidableEq, Repr

/-- Message carried by either error kind (Python `str(exc)`). -/
def BotError.message : BotError → String
  | .valueError m => m
  | .tradingBotError m => m

/-- `TradeSignal` enumeration from `strategy.py`. -/
inductive TradeSignal where
  | BUY
  | SELL
  | HOLD
deriving DecidableEq, Repr

/-- The `value` attribute of the Python enum member. -/
def TradeSignal.value : TradeSignal → String
  | .BUY => "BUY"
  | .SELL => "SELL"
  | .HOLD => "HOLD"

/-- Dataclass `MovingAverageStrategy` (fields only; the
`__post_init__` validation is `mkStrategy` below). -/
structure MovingAverageStrategy where
  short_window : Int
  long_window : Int
deriving DecidableEq, Repr

/-- `MovingAverageStrategy.__post_init__` from `strategy.py`: raises
`ValueError` when a window is non-positive, then when the short window
is not strictly below the long one. -/
def mkStrategy (short_window long_window : Int) : Except BotError MovingAverageStrategy :=
  if short_window ≤ 0 ∨ long_window ≤ 0 then
    .error (.valueError "Les fenetres de moyenne mobile doivent etre positives.")
  else if short_window ≥ long_window then
    .error (.valueError "La fenetre courte doit etre strictement inferieure a la fenetre longue.")
  else
    .ok { short_window := short_window, long_window := long_window }

/-- Clamped index of a Python slice bound over a sequence of length `n`:
a negative bound counts from the end, and bounds are clamped to
`[0, n]`. -/
def pySliceIdx (n : Nat) (i : Int) : Nat :=
  if i < 0 then ((n : Int) + i).toNat else min i.toNat n

/-- Python slice `xs[start:stop]`. -/
def pySlice {α : Type} (xs : List α) (start stop : Int) : List α :=
  (xs.take (pySliceIdx xs.length stop)).drop (pySliceIdx xs.length start)

/-- Python slice `xs[start:]`. -/
def pySliceFrom {α : Type} (xs : List α) (start : Int) : List α :=
  xs.drop (pySliceIdx xs.length start)

/-- `statistics.mean` on a list of rationals (callers never pass an
empty list). -/
def listMean (xs : List ℚ) : ℚ := xs.sum / (xs.length : ℚ)

/-- `MovingAverageStrategy.evaluate` from `strategy.py`, lines 31-46. -/
def MovingAverageStrategy.evaluate (st : MovingAverageStrategy) (prices : List ℚ) :
    TradeSignal :=
  if (prices.length : Int) < st.long_window + 1 then
    .HOLD
  else
    let short_ma := listMean (pySliceFrom prices (-st.short_window))
    let long_ma := listMean (pySliceFrom prices (-st.long_window))
    let previous_short := listMean (pySlice prices (-st.short_window - 1) (-1))
    let previous_long := listMean (pySlice prices (-st.long_window - 1) (-1))
    if short_ma > long_ma ∧ previous_short ≤ previous_long then .BUY
    else if short_ma < long_ma ∧ previous_short ≥ previous_long then .SELL
    else .HOLD

theorem pySliceIdx_neg (n : Nat) (s : Int) (hs : 0 < s) :
    pySliceIdx n (-s) = n - s.toNat := by
  unfold pySliceIdx
  rw [if_pos (by omega)]
  omega

theorem pySliceFrom_neg (xs : List ℚ) (s : Int) (hs : 0 < s) :
    pySliceFrom xs (-s) = xs.drop (xs.length - s.toNat) := by
  unfold pySliceFrom
  rw [pySliceIdx_neg _ _ hs]

theorem pySlice_prev (xs : List ℚ) (s : Int) (hs : 0 < s)
    (hlen : s.toNat + 1 ≤ xs.length) :
    pySlice xs (-s - 1) (-1) = (xs.drop (xs.length - s.toNat - 1)).take s.toNat := by
  unfold pySlice
  have h1 : pySliceIdx xs.length (-s - 1) = xs.length - s.toNat - 1 := by
    unfold pySliceIdx
    rw [if_pos (by omega)]
    omega
  have h2 : pySliceIdx xs.length (-1) = xs.length - 1 := by
    unfold pySliceIdx
    rw [if_pos (by omega)]
    omega
  rw [h1, h2, List.drop_take]
  congr 1
  omega

/-- C1: for positive windows with `shortWindow < longWindow`, `evaluate`
returns HOLD on histories shorter than `longWindow + 1`; otherwise, with
the four moving averages taken as means of the trailing windows (and the
same-size windows ending one sample earlier), it returns BUY exactly
when the short mean is above the long one while the previous pair was
not, SELL in the symmetric case, and HOLD otherwise; and the 21-sample
sequence of twenty 1s followed by a 2, with windows (5, 20), yields
BUY. -/
theorem moving_average_evaluate_rule :
    (∀ (s l : Int), 0 < s → s < l → ∀ prices : List ℚ,
      MovingAverageStrategy.evaluate ⟨s, l⟩ prices =
        if (prices.length : Int) < l + 1 then TradeSignal.HOLD
        else
          let n := prices.length
          let shortMA := listMean (prices.drop (n - s.toNat))
          let longMA := listMean (prices.drop (n - l.toNat))
          let prevShortMA := listMean ((prices.drop (n - s.toNat - 1)).take s.toNat)
          let prevLongMA := listMean ((prices.drop (n - l.toNat - 1)).take l.toNat)
          if shortMA > longMA ∧ prevShortMA ≤ prevLongMA then TradeSignal.BUY
          else if shortMA < longMA ∧ prevShortMA ≥ prevLongMA then TradeSignal.SELL
          else TradeSignal.HOLD) ∧
    MovingAverageStrategy.evaluate ⟨5, 20⟩ (List.replicate 20 (1 : ℚ) ++ [2]) =
      TradeSignal.BUY := by
  constructor
  · intro s l hs hsl prices
    simp only [MovingAverageStrategy.evaluate]
    by_cases hlen : ((prices.length : Int) < l + 1)
    · rw [if_pos hlen, if_pos hlen]
    · rw [if_neg hlen, if_neg hlen]
      have e1 := pySliceFrom_neg prices s hs
      have e2 := pySliceFrom_neg prices l (by omega)
      have e3 := pySlice_prev prices s hs (by omega)
      have e4 := pySlice_prev prices l (by omega) (by omega)
      simp only [e1, e2, e3, e4]
  · have hrep : List.replicate 20 (1 : ℚ) ++ [2] =
        [1, 1, 1, 1, 1, 1, 1, 1, 1, 1, 1, 1, 1, 1, 1, 1, 1, 1, 1, 1, 2] := rfl
    rw [hrep]
    simp only [MovingAverageStrategy.evaluate]
    rw [if_neg (by decide)]
    have e1 : pySliceFrom
        ([1, 1, 1, 1, 1, 1, 1, 1, 1, 1, 1, 1, 1, 1, 1, 1, 1, 1, 1, 1, 2] : List ℚ)
        (-5) = [1, 1, 1, 1, 2] := rfl
    have e2 : pySliceFrom
        ([1, 1, 1, 1, 1, 1, 1, 1, 1, 1, 1, 1, 1, 1, 1, 1, 1, 1, 1, 1, 2] : List ℚ)
        (-20) = [1, 1, 1, 1, 1, 1, 1, 1, 1, 1, 1, 1, 1, 1, 1, 1, 1, 1, 1, 2] := rfl
    have e3 : pySlice
        ([1, 1, 1, 1, 1, 1, 1, 1, 1, 1, 1, 1, 1, 1, 1, 1, 1, 1, 1, 1, 2] : List ℚ)
        (-5 - 1) (-1) = [1, 1, 1, 1, 1] := rfl
    have e4 : pySlice
        ([1, 1, 1, 1, 1, 1, 1, 1, 1, 1, 1, 1, 1, 1, 1, 1, 1, 1, 1, 1, 2] : List ℚ)
        (-20 - 1) (-1) = [1, 1, 1, 1, 1, 1, 1, 1, 1, 1, 1, 1, 1, 1, 1, 1, 1, 1, 1, 1] := rfl
    have m1 : listMean [1, 1, 1, 1, 2] = 6 / 5 := by norm_num [listMean]
    have m2 : listMean [1, 1, 1, 1, 1, 1, 1, 1, 1, 1, 1, 1, 1, 1, 1, 1, 1, 1, 1, 2] =
        21 / 20 := by norm_num [listMean]
    have m3 : listMean [1, 1, 1, 1, 1] = 1 := by norm_num [listMean]
    have m4 : listMean [1, 1, 1, 1, 1, 1, 1, 1, 1, 1, 1, 1, 1, 1, 1, 1, 1, 1, 1, 1] = 1 := by
      norm_num [listMean]
    simp only [e1, e2, e3, e4, m1, m2, m3, m4]
    norm_num

/-- Witness for C1: the general rule applied at windows (2, 3) and the
three-sample history of 1s. -/
theorem moving_average_evaluate_rule_witness :
    MovingAverageStrategy.evaluate ⟨2, 3⟩ ([1, 1, 1] : List ℚ) =
      if ((([1, 1, 1] : List ℚ).length : Int) < 3 + 1 : Prop) then TradeSignal.HOLD
      else
        let n := ([1, 1, 1] : List ℚ).length
        let shortMA := listMean (([1, 1, 1] : List ℚ).drop (n - (2 : Int).toNat))
        let longMA := listMean (([1, 1, 1] : List ℚ).drop (n - (3 : Int).toNat))
        let prevShortMA :=
          listMean ((([1, 1, 1] : List ℚ).drop (n - (2 : Int).toNat - 1)).take (2 : Int).toNat)
        let prevLongMA :=
          listMean ((([1, 1, 1] : List ℚ).drop (n - (3 : Int).toNat - 1)).take (3 : Int).toNat)
        if shortMA > longMA ∧ prevShortMA ≤ prevLongMA then TradeSignal.BUY
        else if shortMA < longMA ∧ prevShortMA ≥ prevLongMA then TradeSignal.SELL
        else TradeSignal.HOLD :=
  moving_average_evaluate_rule.1 2 3 (by decide) (by decide) [1, 1, 1]

/-- Python `str.strip()`: drop leading and trailing whitespace. -/
def pyStrip (s : String) : String :=
  ⟨((s.data.dropWhile Char.isWhitespace).reverse.dropWhile Char.isWhitespace).reverse⟩

/-- Python `str.lower()` (ASCII case folding). -/
def pyLower (s : String) : String := ⟨s.data.map Char.toLower⟩

/-- Python `str.upper()` (ASCII case folding). -/
def pyUpper (s : String) : String := ⟨s.data.map Char.toUpper⟩

/-- Truthy tokens of `_parse_bool` in `config.py`. -/
def trueTokens : List String := ["1", "true", "vrai", "yes", "oui", "on"]

/-- Falsy tokens of `_parse_bool` in `config.py`. -/
def falseTokens : List String := ["0", "false", "faux", "no", "non", "off"]

/-- `_parse_bool` from `config.py`, lines 27-37: `None` yields the
default; otherwise the trimmed lower-cased value is matched against the
two token sets, and anything else raises `ValueError` naming the raw
value. -/
def _parse_bool (value : Option String) (default : Bool) : Except BotError Bool :=
  match value with
  | none => .ok default
  | some v =>
    let normalized := pyLower (pyStrip v)
    if normalized ∈ trueTokens then .ok true
    else if normalized ∈ falseTokens then .ok false
    else
      .error (.valueError
        ("Impossible de convertir la valeur " ++ v ++ " en booleen. Utilisez true/false."))

theorem tokens_disjoint : ∀ x : String, x ∈ falseTokens → x ∉ trueTokens := by
  intro x hx
  simp only [falseTokens, List.mem_cons, List.not_mem_nil, or_false] at hx
  rcases hx with h | h | h | h | h | h <;> subst h <;> decide

/-- C4 counterexample: a present-but-blank boolean value does not yield
the supplied default; `_parse_bool` raises the invalid-value error on
it. -/
theorem parse_bool_blank_counterexample :
    _parse_bool (some "") true ≠ .ok true ∧
    _parse_bool (some "") true =
      .error (.valueError
        "Impossible de convertir la valeur  en booleen. Utilisez true/false.") := by
  exact ⟨fun h => Except.noConfusion h, rfl⟩

/-- C4 (amended): after trimming and lower-casing, a recognized truthy
token parses to true and a falsy token to false; an absent value yields
the supplied default; any present value whose trimmed lower-casing is in
neither set — a blank value included — fails with the invalid-value
error naming the offending string. -/
theorem parse_bool_grammar :
    ∀ (value : String) (default : Bool),
      _parse_bool none default = .ok default ∧
      (pyLower (pyStrip value) ∈ trueTokens → _parse_bool (some value) default = .ok true) ∧
      (pyLower (pyStrip value) ∈ falseTokens → _parse_bool (some value) default = .ok false) ∧
      (pyLower (pyStrip value) ∉ trueTokens → pyLower (pyStrip value) ∉ falseTokens →
        _parse_bool (some value) default =
          .error (.valueError ("Impossible de convertir la valeur " ++ value ++
            " en booleen. Utilisez true/false."))) := by
  intro value default
  refine ⟨rfl, ?_, ?_, ?_⟩
  · intro h
    simp only [_parse_bool]
    rw [if_pos h]
  · intro h
    simp only [_parse_bool]
    rw [if_neg (tokens_disjoint _ h), if_pos h]
  · intro h1 h2
    simp only [_parse_bool]
    rw [if_neg h1, if_neg h2]

/-- Witness for C4: a padded upper-case truthy token parses to true
regardless of the default. -/
theorem parse_bool_grammar_witness : _parse_bool (some " OUI") false = .ok true :=
  (parse_bool_grammar " OUI" false).2.1 (by decide)

/-- C9: constructing the strategy fails with the `ValueError` kind —
never the operational `TradingBotError` kind — whenever a window is
non-positive or the short window is not strictly below the long one
(including the pairs (5,5), (0,10), (-1,10)), and succeeds for every
pair with `0 < shortWindow < longWindow`. -/
theorem strategy_construction_rule :
    (∀ s l : Int, (s ≤ 0 ∨ l ≤ 0 ∨ l ≤ s) →
      (∃ msg, mkStrategy s l = .error (.valueError msg)) ∧
      ∀ msg, mkStrategy s l ≠ .error (.tradingBotError msg)) ∧
    (∀ s l : Int, 0 < s → s < l →
      mkStrategy s l = .ok { short_window := s, long_window := l }) ∧
    (∃ m, mkStrategy 5 5 = .error (.valueError m)) ∧
    (∃ m, mkStrategy 0 10 = .error (.valueError m)) ∧
    (∃ m, mkStrategy (-1) 10 = .error (.valueError m)) := by
  refine ⟨?_, ?_, ⟨_, rfl⟩, ⟨_, rfl⟩, ⟨_, rfl⟩⟩
  · intro s l h
    unfold mkStrategy
    by_cases h1 : s ≤ 0 ∨ l ≤ 0
    · rw [if_pos h1]
      exact ⟨⟨_, rfl⟩, fun msg hmsg => by simp at hmsg⟩
    · rw [if_neg h1, if_pos (by omega)]
      exact ⟨⟨_, rfl⟩, fun msg hmsg => by simp at hmsg⟩
  · intro s l hs hsl
    unfold mkStrategy
    rw [if_neg (by omega), if_neg (by omega)]

/-- Witness for C9: the rule applied at the invalid pair (5, 5) and the
valid pair (2, 3). -/
theorem strategy_construction_rule_witness :
    ((∃ msg, mkStrategy 5 5 = .error (.valueError msg)) ∧
      ∀ msg, mkStrategy 5 5 ≠ .error (.tradingBotError msg)) ∧
    mkStrategy 2 3 = .ok { short_window := 2, long_window := 3 } :=
  ⟨strategy_construction_rule.1 5 5 (by decide),
    strategy_construction_rule.2.1 2 3 (by decide) (by decide)⟩

/-- Process environment: a partial map from variable names to values. -/
abbrev Env := String → Option String

/-- Python `os.getenv(key) or default` where an empty string counts as
absent. -/
def pyGetenvOr (env : Env) (key default : String) : String :=
  match env key with
  | none => default
  | some v => if v = "" then default else v

/-- Exchange-identifier resolution at the top of `BotConfig.from_env`
(`config.py` lines 83-84): `ACTIVE_EXCHANGE`, stripped and lower-cased,
falling back to "binance" at each step. -/
def resolveExchange (env : Env) : String :=
  let raw := pyGetenvOr env "ACTIVE_EXCHANGE" "binance"
  let e := pyLower (pyStrip raw)
  if e = "" then "binance" else e

/-- The legacy `BINANCE_`-prefixed fallback inside `_get_exchange_value`
(`config.py` lines 91-94), applied only for non-binance exchanges. -/
def legacyExchangeValue (env : Env) (exchangeUpper name : String) : Option String :=
  if exchangeUpper ≠ "BINANCE" then
    match env ("BINANCE_" ++ name) with
    | some lv => if pyStrip lv ≠ "" then some lv else none
    | none => none
  else none

/-- `_get_exchange_value` from `config.py` lines 87-95: the
exchange-prefixed variable when present and non-blank, else the legacy
fallback. -/
def getExchangeValue (env : Env) (exchangeUpper name : String) : Option String :=
  match env (exchangeUpper ++ "_" ++ name) with
  | some v => if pyStrip v ≠ "" then some v else legacyExchangeValue env exchangeUpper name
  | none => legacyExchangeValue env exchangeUpper name

/-- The `testMode` resolution of `BotConfig.from_env` (`config.py`
lines 101-105). -/
def testModeFromEnv (env : Env) : Except BotError Bool :=
  let exchangeUpper := pyUpper (resolveExchange env)
  match getExchangeValue env exchangeUpper "TEST_MODE" with
  | some v => _parse_bool (some v) true
  | none => _parse_bool (env "BOT_TEST_MODE") true

theorem legacyExchangeValue_nonblank (env : Env) (p n v : String)
    (h : legacyExchangeValue env p n = some v) : pyStrip v ≠ "" := by
  unfold legacyExchangeValue at h
  split at h
  · split at h
    · split at h
      · cases h
        assumption
      · exact absurd h (by simp)
    · exact absurd h (by simp)
  · exact absurd h (by simp)

theorem getExchangeValue_nonblank (env : Env) (p n v : String)
    (h : getExchangeValue env p n = some v) : pyStrip v ≠ "" := by
  unfold getExchangeValue at h
  split at h
  · split at h
    · cases h
      assumption
    · exact legacyExchangeValue_nonblank env p n v h
  · exact legacyExchangeValue_nonblank env p n v h

/-- Environment holding only `BOT_TEST_MODE=false`. -/
def envBotOnly : Env := fun k => if k = "BOT_TEST_MODE" then some "false" else none

/-- Environment holding `BINANCE_TEST_MODE=true` and
`BOT_TEST_MODE=false`. -/
def envBothSet : Env := fun k =>
  if k = "BINANCE_TEST_MODE" then some "true"
  else if k = "BOT_TEST_MODE" then some "false"
  else none

/-- C3: the `testMode` field of `from_env` uses the exchange-specific
`TEST_MODE` value (necessarily non-blank, after the legacy fallback)
through the boolean grammar when one is present, and otherwise parses
`BOT_TEST_MODE` with default true; with only `BOT_TEST_MODE=false` the
result is false, and with `BINANCE_TEST_MODE=true` alongside
`BOT_TEST_MODE=false` the exchange-specific value wins. -/
theorem testMode_resolution :
    (∀ env : Env,
      (∀ v, getExchangeValue env (pyUpper (resolveExchange env)) "TEST_MODE" = some v →
        pyStrip v ≠ "" ∧ testModeFromEnv env = _parse_bool (some v) true) ∧
      (getExchangeValue env (pyUpper (resolveExchange env)) "TEST_MODE" = none →
        testModeFromEnv env = _parse_bool (env "BOT_TEST_MODE") true)) ∧
    testModeFromEnv envBotOnly = .ok false ∧
    testModeFromEnv envBothSet = .ok true := by
  refine ⟨?_, rfl, rfl⟩
  intro env
  constructor
  · intro v hv
    refine ⟨getExchangeValue_nonblank env _ _ v hv, ?_⟩
    simp only [testModeFromEnv]
    rw [hv]
  · intro hn
    simp only [testModeFromEnv]
    rw [hn]

/-- Witness for C3: the resolution rule applied to the environment where
both variables are set. -/
theorem testMode_resolution_witness :
    pyStrip "true" ≠ "" ∧ testModeFromEnv envBothSet = _parse_bool (some "true") true :=
  (testMode_resolution.1 envBothSet).1 "true" rfl

/-- The parameter dictionary built by `place_market_order`
(`binance_client.py` lines 80-88): exactly one of `quantity` and
`quoteOrderQty` is filled in. -/
structure OrderParams where
  symbol : String
  side : String
  type : String
  quantity : Option ℚ
  quoteOrderQty : Option ℚ
deriving DecidableEq, Repr

/-- An order-result dictionary: every field optional, mirroring
`Dict[str, Any]` lookups with `get`. -/
structure OrderResult where
  symbol : Option String := none
  side : Option String := none
  status : Option String := none
  executedQty : Option ℚ := none
  transactTime : Option Nat := none
  orderId : Option String := none
deriving DecidableEq, Repr

/-- A REST endpoint invocation performed by the client wrapper. -/
inductive ApiCall where
  | newOrderTest (params : OrderParams)
  | newOrder (params : OrderParams)
deriving DecidableEq, Repr

/-- The wrapped third-party Spot client: stored credentials plus the
two order endpoints, each either succeeding or raising `ClientError`
with a message. -/
structure SpotClient where
  api_key : Option String
  api_secret : Option String
  new_order_test : OrderParams → Except String Unit
  new_order : OrderParams → Except String OrderResult

/-- Python truthiness test `not s` on an optional string: `None` and
the empty string are falsy. -/
def pyFalsyStr : Option String → Bool
  | none => true
  | some s => s == ""

/-- `BinanceClient.place_market_order` from `binance_client.py` lines
58-102, instrumented with the list of endpoints actually invoked;
`now_ms` stands for `int(time.time() * 1000)`. -/
def place_market_order (client : SpotClient) (symbol side : String) (quantity : ℚ)
    (quote_order_qty : Option ℚ) (test_mode : Bool) (now_ms : Nat) :
    Except BotError OrderResult × List ApiCall :=
  if pyFalsyStr client.api_key || pyFalsyStr client.api_secret then
    (.error (.tradingBotError
      ("Les identifiants Binance sont requis pour executer un ordre. " ++
        "Definissez BINANCE_API_KEY et BINANCE_API_SECRET (ou EXCHANGE_API_KEY/SECRET).")),
      [])
  else
    let params : OrderParams :=
      match quote_order_qty with
      | some q =>
        { symbol := symbol, side := side, type := "MARKET",
          quantity := none, quoteOrderQty := some q }
      | none =>
        { symbol := symbol, side := side, type := "MARKET",
          quantity := some quantity, quoteOrderQty := none }
    if test_mode then
      match client.new_order_test params with
      | .ok _ =>
        (.ok { symbol := some symbol, side := some side, status := some "TEST",
               executedQty := params.quantity.orElse fun _ => params.quoteOrderQty,
               transactTime := some now_ms, orderId := none },
          [.newOrderTest params])
      | .error e =>
        (.error (.tradingBotError ("Erreur lors de l execution de l ordre: " ++ e)),
          [.newOrderTest params])
    else
      match client.new_order params with
      | .ok r => (.ok r, [.newOrder params])
      | .error e =>
        (.error (.tradingBotError ("Erreur lors de l execution de l ordre: " ++ e)),
          [.newOrder params])

/-- C2: with a missing or blank credential `place_market_order` fails
with the operational error before invoking any endpoint, for either
value of `test_mode`; with credentials present and `test_mode` true the
live `new_order` endpoint is never invoked, every invoked endpoint is
the validation one carrying exactly one of quantity/quoteOrderQty, and
any returned result has status "TEST" with the executed-quantity field
echoing whichever of the two was supplied. -/
theorem place_market_order_rule :
    ∀ (client : SpotClient) (symbol side : String) (quantity : ℚ)
      (qoq : Option ℚ) (test_mode : Bool) (now_ms : Nat),
      ((pyFalsyStr client.api_key || pyFalsyStr client.api_secret) = true →
        ∃ msg, place_market_order client symbol side quantity qoq test_mode now_ms =
          (.error (.tradingBotError msg), [])) ∧
      ((pyFalsyStr client.api_key || pyFalsyStr client.api_secret) = false →
        (∀ p, ApiCall.newOrder p ∉
          (place_market_order client symbol side quantity qoq true now_ms).2) ∧
        (∀ c, c ∈ (place_market_order client symbol side quantity qoq true now_ms).2 →
          ∃ p, c = ApiCall.newOrderTest p ∧
            ((qoq = none ∧ p.quantity = some quantity ∧ p.quoteOrderQty = none) ∨
              (∃ x, qoq = some x ∧ p.quantity = none ∧ p.quoteOrderQty = some x))) ∧
        (∀ r, (place_market_order client symbol side quantity qoq true now_ms).1 = .ok r →
          r.status = some "TEST" ∧ r.executedQty = some (qoq.getD quantity))) := by
  intro client symbol side quantity qoq test_mode now_ms
  constructor
  · intro hcred
    refine ⟨"Les identifiants Binance sont requis pour executer un ordre. " ++
      "Definissez BINANCE_API_KEY et BINANCE_API_SECRET (ou EXCHANGE_API_KEY/SECRET).", ?_⟩
    unfold place_market_order
    rw [if_pos hcred]
  · intro hcred
    rcases qoq with _ | x
    · refine ⟨?_, ?_, ?_⟩
      · intro p
        rcases hres : client.new_order_test
            { symbol := symbol, side := side, type := "MARKET",
              quantity := some quantity, quoteOrderQty := none } with e | u <;>
          simp [place_market_order, hcred, hres]
      · intro c hc
        rcases hres : client.new_order_test
            { symbol := symbol, side := side, type := "MARKET",
              quantity := some quantity, quoteOrderQty := none } with e | u <;>
          simp [place_market_order, hcred, hres] at hc <;>
          exact ⟨_, hc, Or.inl ⟨rfl, rfl, rfl⟩⟩
      · intro r hr
        rcases hres : client.new_order_test
            { symbol := symbol, side := side, type := "MARKET",
              quantity := some quantity, quoteOrderQty := none } with e | u
        · simp [place_market_order, hcred, hres] at hr
        · simp [place_market_order, hcred, hres] at hr
          subst hr
          exact ⟨rfl, rfl⟩
    · refine ⟨?_, ?_, ?_⟩
      · intro p
        rcases hres : client.new_order_test
            { symbol := symbol, side := side, type := "MARKET",
              quantity := none, quoteOrderQty := some x } with e | u <;>
          simp [place_market_order, hcred, hres]
      · intro c hc
        rcases hres : client.new_order_test
            { symbol := symbol, side := side, type := "MARKET",
              quantity := none, quoteOrderQty := some x } with e | u <;>
          simp [place_market_order, hcred, hres] at hc <;>
          exact ⟨_, hc, Or.inr ⟨x, rfl, rfl, rfl⟩⟩
      · intro r hr
        rcases hres : client.new_order_test
            { symbol := symbol, side := side, type := "MARKET",
              quantity := none, quoteOrderQty := some x } with e | u
        · simp [place_market_order, hcred, hres] at hr
        · simp [place_market_order, hcred, hres] at hr
          subst hr
          exact ⟨rfl, rfl⟩

/-- A concrete client whose endpoints always succeed, used by the
witnesses. -/
def okClient : SpotClient where
  api_key := some "k"
  api_secret := some "s"
  new_order_test := fun _ => .ok ()
  new_order := fun p =>
    .ok { symbol := some p.symbol, side := some p.side, status := none,
          executedQty := p.quantity, transactTime := some 0, orderId := none }

/-- Witness for C2: the rule applied to a credential-less client and to
`okClient` in test mode. -/
theorem place_market_order_rule_witness :
    (∃ msg, place_market_order ⟨none, none, fun _ => .ok (), fun _ => .error "x"⟩
      "BTCUSDT" "BUY" 1 none false 0 = (.error (.tradingBotError msg), [])) ∧
    (∀ r, (place_market_order okClient "BTCUSDT" "BUY" 1 none true 0).1 = .ok r →
      r.status = some "TEST" ∧ r.executedQty = some ((none : Option ℚ).getD 1)) :=
  ⟨(place_market_order_rule ⟨none, none, fun _ => .ok (), fun _ => .error "x"⟩
      "BTCUSDT" "BUY" 1 none false 0).1 rfl,
    ((place_market_order_rule okClient "BTCUSDT" "BUY" 1 none true 0).2 rfl).2.2⟩

/-- Dataclass `BotConfig` from `config.py` lines 40-55, with the
source's defaults. -/
structure BotConfig where
  exchange : String := "binance"
  api_key : Option String := none
  api_secret : Option String := none
  symbol : String := "BTCUSDT"
  quote_asset : String := "USDT"
  base_asset : String := "BTC"
  trade_quantity : ℚ := 1 / 1000
  poll_interval : ℚ := 5
  short_window : Int := 5
  long_window : Int := 20
  max_history : Int := 120
  test_mode : Bool := true
deriving DecidableEq, Repr

/-- The all-defaults configuration. -/
def defaultConfig : BotConfig := {}

/-- Dataclass `Trade` from `bot.py` lines 16-25; the wall-clock
timestamp is abstracted to a natural tick. -/
structure Trade where
  timestamp : Nat
  side : TradeSignal
  price : ℚ
  quantity : ℚ
  status : String
  order_id : Option String := none
deriving DecidableEq, Repr

/-- Dataclass `BotUpdate` from `bot.py` lines 28-35. -/
structure BotUpdate where
  price : Option ℚ
  signal : TradeSignal
  trade : Option Trade
  error : Option String := none
deriving DecidableEq, Repr

/-- Mutable state of a `TradingBot`: the running flag, the bounded
price deque and the trade list. -/
structure BotState where
  running : Bool
  prices : List ℚ
  trades : List Trade
deriving DecidableEq, Repr

/-- The deque capacity chosen in `TradingBot.__init__` (`bot.py` line
46): `max(config.max_history, config.long_window + 5)`. -/
def botCapacity (cfg : BotConfig) : Int := max cfg.max_history (cfg.long_window + 5)

/-- `collections.deque(maxlen=n).append`: append on the right, then
evict from the left down to the capacity. -/
def dequeAppend (maxlen : Nat) (xs : List ℚ) (x : ℚ) : List ℚ :=
  (xs ++ [x]).drop ((xs ++ [x]).length - maxlen)

/-- The `Trade` record built by `TradingBot.execute_trade` from the
order result (`bot.py` lines 91-98): a missing status field falls back
to the literal "FILLED", and a missing order id stays absent. -/
def tradeOfOrder (cfg : BotConfig) (signal : TradeSignal) (price : ℚ) (ts : Nat)
    (order : OrderResult) : Trade :=
  { timestamp := ts, side := signal, price := price,
    quantity := cfg.trade_quantity,
    status := order.status.getD "FILLED",
    order_id := order.orderId }

/-- `TradingBot.fetch_price` (`bot.py` lines 74-79): on success the
price is appended to the bounded history; on failure nothing changes.
The exchange round trip is abstracted by its outcome. -/
def fetch_price (cfg : BotConfig) (st : BotState) (fetchResult : Except BotError ℚ) :
    Except BotError (BotState × ℚ) :=
  match fetchResult with
  | .error e => .error e
  | .ok price =>
    .ok ({ st with prices := dequeAppend (botCapacity cfg).toNat st.prices price }, price)

/-- `TradingBot.execute_trade` (`bot.py` lines 81-100): a successful
submission appends the built `Trade` to the history and returns it. -/
def execute_trade (cfg : BotConfig) (st : BotState) (signal : TradeSignal) (price : ℚ)
    (orderResult : Except BotError OrderResult) (ts : Nat) :
    Except BotError (BotState × Trade) :=
  match orderResult with
  | .error e => .error e
  | .ok order =>
    let trade := tradeOfOrder cfg signal price ts order
    .ok ({ st with trades := st.trades ++ [trade] }, trade)

/-- One pass of the loop body of `TradingBot.run` (`bot.py` lines
123-142), given the outcomes of the two exchange calls: a fetch failure
publishes a HOLD update with the message and short-circuits; otherwise
the strategy is evaluated on the updated history and a BUY/SELL signal
triggers the order, whose failure is captured in the update's error
field. -/
def runIteration (cfg : BotConfig) (strat : MovingAverageStrategy) (st : BotState)
    (fetchResult : Except BotError ℚ) (orderResult : Except BotError OrderResult)
    (ts : Nat) : BotState × BotUpdate :=
  match fetch_price cfg st fetchResult with
  | .error e =>
    (st, { price := none, signal := .HOLD, trade := none, error := some e.message })
  | .ok (st1, price) =>
    let signal := strat.evaluate st1.prices
    if signal = .BUY ∨ signal = .SELL then
      match execute_trade cfg st1 signal price orderResult ts with
      | .error e =>
        (st1, { price := some price, signal := signal, trade := none,
                error := some e.message })
      | .ok (st2, trade) =>
        (st2, { price := some price, signal := signal, trade := some trade, error := none })
    else
      (st1, { price := some price, signal := signal, trade := none, error := none })

/-- External happenings during one pass of the `while` loop: either a
full iteration (exchange outcomes, timestamp, and whether `stop` was
requested before the next running-flag check) or an abnormal abort of
the loop body. -/
inductive LoopEvent where
  | iter (fetchResult : Except BotError ℚ) (orderResult : Except BotError OrderResult)
      (ts : Nat) (stopRequested : Bool)
  | crash

/-- The `while self._running` loop of `TradingBot.run`: the flag is
checked at the top of each pass, and an abnormal event aborts the loop
body. -/
def loopSteps (cfg : BotConfig) (strat : MovingAverageStrategy) :
    BotState → List LoopEvent → BotState
  | st, [] => st
  | st, ev :: rest =>
    if st.running then
      match ev with
      | .crash => st
      | .iter f o ts stopR =>
        let st1 := (runIteration cfg strat st f o ts).1
        loopSteps cfg strat (if stopR then { st1 with running := false } else st1) rest
    else st

/-- `TradingBot.run` (`bot.py` lines 114-144): the lock-guarded start
(a no-op returning immediately when already running), the loop, and the
`finally` block that always clears the running flag. The returned
boolean tells whether a loop was actually launched. -/
def runBot (cfg : BotConfig) (strat : MovingAverageStrategy) (st : BotState)
    (events : List LoopEvent) : BotState × Bool :=
  if st.running then (st, false)
  else
    let stEnd := loopSteps cfg strat { st with running := true } events
    ({ stEnd with running := false }, true)

/-- `TradingBot.stop` (`bot.py` lines 146-149). -/
def stopBot (st : BotState) : BotState := { st with running := false }

/-- C5: a failed price fetch publishes an update with no price, signal
HOLD, no trade, and the failure message, leaves the whole state — the
price history included — unchanged, and its outcome does not depend on
the strategy (which is never evaluated); a failed order submission
after a successful fetch keeps the appended price in the history,
records no trade, and surfaces the failure only through the update's
error field. -/
theorem iteration_error_handling :
    ∀ (cfg : BotConfig) (strat : MovingAverageStrategy) (st : BotState)
      (orderResult : Except BotError OrderResult) (ts : Nat),
      (∀ e, runIteration cfg strat st (.error e) orderResult ts =
        (st, { price := none, signal := .HOLD, trade := none, error := some e.message })) ∧
      (∀ e strat2, runIteration cfg strat st (.error e) orderResult ts =
        runIteration cfg strat2 st (.error e) orderResult ts) ∧
      (∀ (price : ℚ) (e : BotError),
        (strat.evaluate (dequeAppend (botCapacity cfg).toNat st.prices price) = .BUY ∨
          strat.evaluate (dequeAppend (botCapacity cfg).toNat st.prices price) = .SELL) →
        runIteration cfg strat st (.ok price) (.error e) ts =
          ({ st with prices := dequeAppend (botCapacity cfg).toNat st.prices price },
            { price := some price,
              signal := strat.evaluate (dequeAppend (botCapacity cfg).toNat st.prices price),
              trade := none, error := some e.message })) := by
  intro cfg strat st orderResult ts
  refine ⟨fun e => rfl, fun e strat2 => rfl, ?_⟩
  intro price e hsig
  simp only [runIteration, fetch_price, execute_trade]
  rw [if_pos hsig]

/-- The (1, 2)-window strategy fires BUY on the history [1, 1] extended
with the sample 2 under the default capacity. -/
theorem evaluate_1_2_buy :
    MovingAverageStrategy.evaluate ⟨1, 2⟩
      (dequeAppend (botCapacity defaultConfig).toNat [1, 1] 2) = .BUY := by
  have h : dequeAppend (botCapacity defaultConfig).toNat [1, 1] 2 = [1, 1, 2] := rfl
  rw [h]
  simp only [MovingAverageStrategy.evaluate]
  rw [if_neg (by decide)]
  have e1 : pySliceFrom ([1, 1, 2] : List ℚ) (-1) = [2] := rfl
  have e2 : pySliceFrom ([1, 1, 2] : List ℚ) (-2) = [1, 2] := rfl
  have e3 : pySlice ([1, 1, 2] : List ℚ) (-1 - 1) (-1) = [1] := rfl
  have e4 : pySlice ([1, 1, 2] : List ℚ) (-2 - 1) (-1) = [1, 1] := rfl
  have m1 : listMean [2] = 2 := by norm_num [listMean]
  have m2 : listMean [1, 2] = 3 / 2 := by norm_num [listMean]
  have m3 : listMean ([1] : List ℚ) = 1 := by norm_num [listMean]
  have m4 : listMean ([1, 1] : List ℚ) = 1 := by norm_num [listMean]
  simp only [e1, e2, e3, e4, m1, m2, m3, m4]
  norm_num

/-- Witness for C5: the order-failure case at a concrete BUY-signalling
iteration. -/
theorem iteration_error_handling_witness :
    runIteration defaultConfig ⟨1, 2⟩ ⟨false, [1, 1], []⟩ (.ok 2)
        (.error (.tradingBotError "boom")) 0 =
      ({ (⟨false, [1, 1], []⟩ : BotState) with
          prices := dequeAppend (botCapacity defaultConfig).toNat [1, 1] 2 },
        { price := some 2,
          signal := MovingAverageStrategy.evaluate ⟨1, 2⟩
            (dequeAppend (botCapacity defaultConfig).toNat [1, 1] 2),
          trade := none, error := some (BotError.tradingBotError "boom").message }) :=
  (iteration_error_handling defaultConfig ⟨1, 2⟩ ⟨false, [1, 1], []⟩
    (.error (.tradingBotError "ignored")) 0).2.2 2 (.tradingBotError "boom")
    (Or.inl evaluate_1_2_buy)

theorem runIteration_trades_mono (cfg : BotConfig) (strat : MovingAverageStrategy)
    (st : BotState) (fetchR : Except BotError ℚ) (orderR : Except BotError OrderResult)
    (ts : Nat) :
    ∃ suffix, (runIteration cfg strat st fetchR orderR ts).1.trades = st.trades ++ suffix := by
  rcases fetchR with e | p
  · exact ⟨[], by simp [runIteration, fetch_price]⟩
  · by_cases hsig :
      strat.evaluate (dequeAppend (botCapacity cfg).toNat st.prices p) = .BUY ∨
        strat.evaluate (dequeAppend (botCapacity cfg).toNat st.prices p) = .SELL
    · rcases orderR with e2 | ord
      · exact ⟨[], by simp [runIteration, fetch_price, execute_trade, hsig]⟩
      · refine ⟨[tradeOfOrder cfg
          (strat.evaluate (dequeAppend (botCapacity cfg).toNat st.prices p)) p ts ord], ?_⟩
        simp [runIteration, fetch_price, execute_trade, hsig]
    · exact ⟨[], by simp [runIteration, fetch_price, execute_trade, hsig]⟩

theorem stateAfterStop_trades (b : Bool) (s : BotState) :
    (if b then { s with running := false } else s).trades = s.trades := by
  cases b <;> rfl

theorem loopSteps_trades_mono (cfg : BotConfig) (strat : MovingAverageStrategy) :
    ∀ (events : List LoopEvent) (st : BotState),
      ∃ suffix, (loopSteps cfg strat st events).trades = st.trades ++ suffix := by
  intro events
  induction events with
  | nil => exact fun st => ⟨[], by simp [loopSteps]⟩
  | cons ev rest ih =>
    intro st
    by_cases hr : st.running = true
    · cases ev with
      | crash => exact ⟨[], by simp [loopSteps, hr]⟩
      | iter f o ts stopR =>
        obtain ⟨s1, hs1⟩ := runIteration_trades_mono cfg strat st f o ts
        obtain ⟨s2, hs2⟩ := ih (if stopR then
          { (runIteration cfg strat st f o ts).1 with running := false }
          else (runIteration cfg strat st f o ts).1)
        refine ⟨s1 ++ s2, ?_⟩
        simp only [loopSteps]
        rw [if_pos hr, hs2, stateAfterStop_trades, hs1, List.append_assoc]
    · exact ⟨[], by simp [loopSteps, hr]⟩

theorem runBot_trades_mono (cfg : BotConfig) (strat : MovingAverageStrategy)
    (st : BotState) (events : List LoopEvent) :
    ∃ suffix, (runBot cfg strat st events).1.trades = st.trades ++ suffix := by
  by_cases hr : st.running = true
  · exact ⟨[], by simp [runBot, hr]⟩
  · obtain ⟨s, hs⟩ := loopSteps_trades_mono cfg strat events { st with running := true }
    refine ⟨s, ?_⟩
    simp only [runBot]
    rw [if_neg hr]
    simpa using hs

/-- C6: when the evaluated signal is BUY or SELL and the submission
succeeds, exactly one `Trade` is appended to the history, carrying the
signal as its side, the configured quantity, and the iteration's
sampled price (whatever the exchange reported as executed quantity or
fields); and the trade history is append-only: neither an iteration nor
a whole run removes or modifies existing elements. -/
theorem trade_recording_rule :
    ∀ (cfg : BotConfig) (strat : MovingAverageStrategy) (st : BotState)
      (price : ℚ) (order : OrderResult) (ts : Nat),
      (∀ sig, strat.evaluate (dequeAppend (botCapacity cfg).toNat st.prices price) = sig →
        sig = .BUY ∨ sig = .SELL →
        (runIteration cfg strat st (.ok price) (.ok order) ts).1.trades =
          st.trades ++ [tradeOfOrder cfg sig price ts order] ∧
        (tradeOfOrder cfg sig price ts order).side = sig ∧
        (tradeOfOrder cfg sig price ts order).quantity = cfg.trade_quantity ∧
        (tradeOfOrder cfg sig price ts order).price = price ∧
        (runIteration cfg strat st (.ok price) (.ok order) ts).2.trade =
          some (tradeOfOrder cfg sig price ts order)) ∧
      (∀ fetchR orderR, ∃ suffix,
        (runIteration cfg strat st fetchR orderR ts).1.trades = st.trades ++ suffix) ∧
      (∀ st0 events, ∃ suffix,
        (runBot cfg strat st0 events).1.trades = st0.trades ++ suffix) := by
  intro cfg strat st price order ts
  refine ⟨?_, fun fetchR orderR => runIteration_trades_mono cfg strat st fetchR orderR ts,
    fun st0 events => runBot_trades_mono cfg strat st0 events⟩
  intro sig hsig hBS
  subst hsig
  simp only [runIteration, fetch_price, execute_trade]
  rw [if_pos hBS]
  exact ⟨rfl, rfl, rfl, rfl, rfl⟩

/-- Witness for C6: the recording rule applied at the concrete
BUY-signalling iteration with an order result lacking every field. -/
theorem trade_recording_rule_witness :
    (runIteration defaultConfig ⟨1, 2⟩ ⟨false, [1, 1], []⟩ (.ok 2) (.ok {}) 0).1.trades =
      ([] : List Trade) ++ [tradeOfOrder defaultConfig .BUY 2 0 {}] ∧
    (tradeOfOrder defaultConfig .BUY 2 0 {}).side = .BUY ∧
    (tradeOfOrder defaultConfig .BUY 2 0 {}).quantity = defaultConfig.trade_quantity ∧
    (tradeOfOrder defaultConfig .BUY 2 0 {}).price = 2 ∧
    (runIteration defaultConfig ⟨1, 2⟩ ⟨false, [1, 1], []⟩ (.ok 2) (.ok {}) 0).2.trade =
      some (tradeOfOrder defaultConfig .BUY 2 0 {}) :=
  (trade_recording_rule defaultConfig ⟨1, 2⟩ ⟨false, [1, 1], []⟩ 2 {} 0).1 .BUY
    evaluate_1_2_buy (Or.inl rfl)

theorem dequeAppend_foldl (cap : Nat) :
    ∀ (ps : List ℚ) (xs : List ℚ), xs.length ≤ cap →
      List.foldl (dequeAppend cap) xs ps = (xs ++ ps).drop (xs.length + ps.length - cap) := by
  intro ps
  induction ps with
  | nil =>
    intro xs h
    simp [Nat.sub_eq_zero_of_le h]
  | cons p rest ih =>
    intro xs h
    rw [List.foldl_cons]
    have hd : dequeAppend cap xs p = (xs ++ [p]).drop (xs.length + 1 - cap) := by
      simp [dequeAppend]
    have hlen : (dequeAppend cap xs p).length = xs.length + 1 - (xs.length + 1 - cap) := by
      rw [hd]
      simp
    rw [ih _ (by omega), hlen, hd,
      ← List.drop_append_of_le_length (by simp), List.drop_drop,
      List.append_assoc, List.singleton_append]
    congr 1
    simp only [List.length_cons]
    omega

/-- C7: the bounded price deque, capacity `max(maxHistory,
longWindow + 5)`, retains after any sequence of appends exactly the
most recent `min(total, capacity)` samples in their original order,
evicting the oldest first. -/
theorem price_history_bound :
    ∀ (cfg : BotConfig) (ps : List ℚ), 0 < cfg.max_history →
      ((botCapacity cfg).toNat : Int) = max cfg.max_history (cfg.long_window + 5) ∧
      (∀ (st : BotState) (price : ℚ), fetch_price cfg st (.ok price) =
        .ok ({ st with prices := dequeAppend (botCapacity cfg).toNat st.prices price },
          price)) ∧
      List.foldl (dequeAppend (botCapacity cfg).toNat) [] ps =
        ps.drop (ps.length - (botCapacity cfg).toNat) ∧
      (List.foldl (dequeAppend (botCapacity cfg).toNat) [] ps).length =
        min ps.length (botCapacity cfg).toNat := by
  intro cfg ps hpos
  have hcap : 0 < botCapacity cfg := by
    unfold botCapacity
    omega
  have hfold := dequeAppend_foldl (botCapacity cfg).toNat ps [] (by simp)
  simp only [List.nil_append, List.length_nil, Nat.zero_add] at hfold
  refine ⟨?_, fun st price => rfl, hfold, ?_⟩
  · unfold botCapacity
    unfold botCapacity at hcap
    omega
  · rw [hfold, List.length_drop]
    omega

/-- Witness for C7: the bound applied to the default configuration and
a two-sample append sequence. -/
theorem price_history_bound_witness :
    ((botCapacity defaultConfig).toNat : Int) =
      max defaultConfig.max_history (defaultConfig.long_window + 5) ∧
    (∀ (st : BotState) (price : ℚ), fetch_price defaultConfig st (.ok price) =
      .ok ({ st with
        prices := dequeAppend (botCapacity defaultConfig).toNat st.prices price },
        price)) ∧
    List.foldl (dequeAppend (botCapacity defaultConfig).toNat) [] [1, 2] =
      ([1, 2] : List ℚ).drop (([1, 2] : List ℚ).length - (botCapacity defaultConfig).toNat) ∧
    (List.foldl (dequeAppend (botCapacity defaultConfig).toNat) [] [1, 2]).length =
      min ([1, 2] : List ℚ).length (botCapacity defaultConfig).toNat :=
  price_history_bound defaultConfig [1, 2] (by decide)

/-- C8: starting an already-running bot is a no-op that launches no
second loop; stopping a non-running bot leaves the state untouched with
the flag false and raises nothing; and whenever a loop is launched the
running flag is false on every exit path, abnormal aborts included. -/
theorem bot_state_machine :
    ∀ (cfg : BotConfig) (strat : MovingAverageStrategy) (st : BotState)
      (events : List LoopEvent),
      (st.running = true → runBot cfg strat st events = (st, false)) ∧
      (st.running = false → stopBot st = st) ∧
      ((runBot cfg strat st events).2 = true →
        (runBot cfg strat st events).1.running = false) := by
  intro cfg strat st events
  refine ⟨?_, ?_, ?_⟩
  · intro h
    simp [runBot, h]
  · intro h
    cases st with
    | mk r p t =>
      have hr : r = false := h
      subst hr
      rfl
  · intro hl
    by_cases hr : st.running = true
    · simp [runBot, hr] at hl
    · simp [runBot, hr]

/-- Witness for C8: the machine at a running bot with no events, a
stopped bot, and a launched loop that aborts abnormally. -/
theorem bot_state_machine_witness :
    runBot defaultConfig ⟨1, 2⟩ ⟨true, [], []⟩ [] = (⟨true, [], []⟩, false) ∧
    stopBot ⟨false, [], []⟩ = (⟨false, [], []⟩ : BotState) ∧
    (runBot defaultConfig ⟨1, 2⟩ ⟨false, [], []⟩ [.crash]).1.running = false :=
  ⟨(bot_state_machine defaultConfig ⟨1, 2⟩ ⟨true, [], []⟩ []).1 rfl,
    (bot_state_machine defaultConfig ⟨1, 2⟩ ⟨false, [], []⟩ []).2.1 rfl,
    (bot_state_machine defaultConfig ⟨1, 2⟩ ⟨false, [], []⟩ [.crash]).2.2 rfl⟩

/-- C10: a `Trade` built from an order result lacking the status field
gets the literal status "FILLED" rather than an absent one, a missing
order id stays absent, and any result returned by the test-mode path of
`place_market_order` carries status "TEST" — so the fallback can only
fire on the live-execution path. -/
theorem trade_status_fallback :
    ∀ (cfg : BotConfig) (signal : TradeSignal) (price : ℚ) (ts : Nat)
      (order : OrderResult),
      (order.status = none → (tradeOfOrder cfg signal price ts order).status = "FILLED") ∧
      (order.orderId = none → (tradeOfOrder cfg signal price ts order).order_id = none) ∧
      (∀ (client : SpotClient) (symbol side : String) (q : ℚ) (qoq : Option ℚ)
        (now_ms : Nat) (r : OrderResult),
        (place_market_order client symbol side q qoq true now_ms).1 = .ok r →
        r.status = some "TEST") := by
  intro cfg signal price ts order
  refine ⟨?_, ?_, ?_⟩
  · intro h
    simp [tradeOfOrder, h]
  · intro h
    simp [tradeOfOrder, h]
  · intro client symbol side q qoq now_ms r hr
    cases hcred : (pyFalsyStr client.api_key || pyFalsyStr client.api_secret) with
    | true =>
      unfold place_market_order at hr
      rw [if_pos hcred] at hr
      simp at hr
    | false =>
      rcases qoq with _ | x
      · rcases hres : client.new_order_test
            { symbol := symbol, side := side, type := "MARKET",
              quantity := some q, quoteOrderQty := none } with e | u
        · simp [place_market_order, hcred, hres] at hr
        · simp [place_market_order, hcred, hres] at hr
          subst hr
          rfl
      · rcases hres : client.new_order_test
            { symbol := symbol, side := side, type := "MARKET",
              quantity := none, quoteOrderQty := some x } with e | u
        · simp [place_market_order, hcred, hres] at hr
        · simp [place_market_order, hcred, hres] at hr
          subst hr
          rfl

/-- Witness for C10: the fallback applied to the empty order result. -/
theorem trade_status_fallback_witness :
    (tradeOfOrder defaultConfig .BUY 1 0 {}).status = "FILLED" ∧
    (tradeOfOrder defaultConfig .BUY 1 0 {}).order_id = none :=
  ⟨(trade_status_fallback defaultConfig .BUY 1 0 {}).1 rfl,
    (trade_status_fallback defaultConfig .BUY 1 0 {}).2.1 rfl⟩

end TradingBotModel
